import Mathlib

/-!
Shallow embedding of the checkout-template core (the StepFlow step state
machine from `src/hooks/useCheckoutSteps.ts` together with the step-indicator
gating of `src/components/CheckoutSteps.tsx`, and the CartSync operations from
`src/hooks/useCart.ts` and `src/pages/CheckoutPage.tsx`), with theorems
settling the specification's claims about them.

JavaScript optional strings are modelled as `Option String`; JS truthiness of
such a value (`undefined`/`''` are falsy) is `truthyStr`.  Asynchronous SDK
calls are modelled by an environment record holding, for each call site, the
response that call receives in the execution under consideration
(`Except Err α` for a call that can throw).  React `useState` cells become
fields of explicit state records threaded through each operation.
-/

namespace Checkout

/-- The four checkout step identities (`src/hooks/useCheckoutSteps.ts`,
`initialSteps`: `'customer' | 'shipping' | 'payment' | 'review'`).  In the
program, `goToStep`/`completeStep` are only ever invoked with one of these
four ids (the per-step buttons and `nextStep`/`prevStep` all pass ids read
from the step list), so the step-id argument ranges over this type. -/
inductive StepId where
  | customer
  | shipping
  | payment
  | review
  deriving DecidableEq, Repr

/-- One checkout step (interface `CheckoutStep` in the types module). -/
structure Step where
  id : StepId
  title : String
  completed : Bool
  active : Bool
  deriving DecidableEq, Repr

/-- The state of the `useCheckoutSteps` hook: the `steps` array and the
`currentStep` cell. -/
structure StepState where
  steps : List Step
  currentStep : StepId
  deriving DecidableEq, Repr

/-- `initialSteps` from `useCheckoutSteps.ts` lines 4-9. -/
def initialSteps : List Step :=
  [ { id := .customer, title := "Customer Info", completed := false, active := true },
    { id := .shipping, title := "Shipping", completed := false, active := false },
    { id := .payment, title := "Payment", completed := false, active := false },
    { id := .review, title := "Review", completed := false, active := false } ]

/-- Initial hook state: `useState(initialSteps)`, `useState('customer')`. -/
def initialState : StepState :=
  { steps := initialSteps, currentStep := .customer }

/-- `goToStep` (`useCheckoutSteps.ts` lines 15-21): unconditionally sets
`currentStep` and marks `active` exactly on the requested id. -/
def goToStep (stepId : StepId) (s : StepState) : StepState :=
  { currentStep := stepId,
    steps := s.steps.map fun step => { step with active := step.id == stepId } }

/-- `completeStep` (`useCheckoutSteps.ts` lines 23-27). -/
def completeStep (stepId : StepId) (s : StepState) : StepState :=
  { s with steps := s.steps.map fun step =>
      if step.id == stepId then { step with completed := true } else step }

/-- `nextStep` (`useCheckoutSteps.ts` lines 29-37): find the active index,
and if a next step exists, complete the current one and activate the next. -/
def nextStep (s : StepState) : StepState :=
  match s.steps.findIdx? (fun step => step.active) with
  | none => s
  | some currentIndex =>
    match s.steps[currentIndex]?, s.steps[currentIndex + 1]? with
    | some cur, some nxt => goToStep nxt.id (completeStep cur.id s)
    | _, _ => s

/-- `prevStep` (`useCheckoutSteps.ts` lines 39-46). -/
def prevStep (s : StepState) : StepState :=
  match s.steps.findIdx? (fun step => step.active) with
  | none => s
  | some currentIndex =>
    if currentIndex = 0 then s
    else
      match s.steps[currentIndex - 1]? with
      | some prv => goToStep prv.id s
      | none => s

/-- JS truthiness of an optional string: `undefined` and `''` are falsy. -/
def truthyStr (v : Option String) : Bool :=
  match v with
  | none => false
  | some s => !(s == "")

/-- Billing address record as carried on the cart; fields from the types
module plus `email` and `method`, which `useCheckoutSteps.ts` and
`useCart.ts` read off `cart.billing`. -/
structure BillingAddress where
  first_name : Option String := none
  last_name : Option String := none
  email : Option String := none
  address1 : Option String := none
  address2 : Option String := none
  city : Option String := none
  state : Option String := none
  zip : Option String := none
  country : Option String := none
  phone : Option String := none
  method : Option String := none
  deriving DecidableEq, Repr

/-- Shipping address record (`ShippingAddress` in the types module). -/
structure ShippingAddress where
  first_name : Option String := none
  last_name : Option String := none
  address1 : Option String := none
  address2 : Option String := none
  city : Option String := none
  state : Option String := none
  zip : Option String := none
  country : Option String := none
  phone : Option String := none
  deriving DecidableEq, Repr

/-- A cart line item (`CartItem` in the types module; the fields the core
reads and the demo-cart fallback constructs). -/
structure CartItem where
  id : String
  product_id : String
  name : String
  price : ℚ
  quantity : Nat
  deriving DecidableEq, Repr

/-- The locally cached cart (`Cart` in the types module; optional fields
reflect that a freshly recovered platform cart may miss any of them). -/
structure Cart where
  id : String
  items : Option (List CartItem) := none
  sub_total : Option ℚ := none
  grand_total : Option ℚ := none
  currency : Option String := none
  billing : Option BillingAddress := none
  shipping : Option ShippingAddress := none
  account_id : Option String := none
  deriving DecidableEq, Repr

/-- `hasCustomerInfo` in the cart effect (`useCheckoutSteps.ts` line 50):
`cart.billing?.first_name && cart.billing?.last_name && cart.billing?.email`. -/
def hasCustomerInfo (cart : Cart) : Bool :=
  truthyStr (cart.billing.bind fun b => b.first_name) &&
  truthyStr (cart.billing.bind fun b => b.last_name) &&
  truthyStr (cart.billing.bind fun b => b.email)

/-- `hasShipping` in the cart effect (line 51): `cart.shipping?.address1`. -/
def hasShipping (cart : Cart) : Bool :=
  truthyStr (cart.shipping.bind fun sh => sh.address1)

/-- `hasPayment` in the cart effect (line 52): `cart.billing?.method`. -/
def hasPayment (cart : Cart) : Bool :=
  truthyStr (cart.billing.bind fun b => b.method)

/-- The `setSteps` completed-recomputation in the cart effect
(`useCheckoutSteps.ts` lines 55-62). -/
def deriveCompleted (cart : Cart) (s : StepState) : StepState :=
  { s with steps := s.steps.map fun step =>
      { step with completed :=
          (step.id == .customer && hasCustomerInfo cart) ||
          (step.id == .shipping && hasShipping cart) ||
          (step.id == .payment && hasPayment cart) ||
          step.completed } }

/-- One run of the `useEffect` cart derivation (`useCheckoutSteps.ts` lines
48-80): if a cart is present, recompute `completed`, then — only while
`currentStep` is `'customer'` — auto-advance to the furthest step whose
prerequisites are all present. -/
def cartEffect (cart : Option Cart) (s : StepState) : StepState :=
  match cart with
  | none => s
  | some c =>
    let s1 := deriveCompleted c s
    if s.currentStep == .customer then
      if hasCustomerInfo c && hasShipping c && hasPayment c then goToStep .review s1
      else if hasCustomerInfo c && hasShipping c then goToStep .payment s1
      else if hasCustomerInfo c then goToStep .shipping s1
      else s1
    else s1

/-- The operations that mutate step state over a session. -/
inductive StepOp where
  | goTo (stepId : StepId)
  | complete (stepId : StepId)
  | next
  | prev
  | derive (cart : Option Cart)

/-- Apply one step operation. -/
def applyOp (s : StepState) (op : StepOp) : StepState :=
  match op with
  | .goTo i => goToStep i s
  | .complete i => completeStep i s
  | .next => nextStep s
  | .prev => prevStep s
  | .derive c => cartEffect c s

/-- Run a sequence of step operations in order. -/
def runOps (ops : List StepOp) (s : StepState) : StepState :=
  ops.foldl applyOp s

/-- The `completed` flag of the step with the given id (false if absent). -/
def isCompleted (i : StepId) (s : StepState) : Bool :=
  match s.steps.find? (fun step => step.id == i) with
  | some step => step.completed
  | none => false

/-- The `active` flag of the step with the given id (false if absent). -/
def isActive (i : StepId) (s : StepState) : Bool :=
  match s.steps.find? (fun step => step.id == i) with
  | some step => step.active
  | none => false

/-- Number of steps whose `active` flag is set. -/
def countActive (s : StepState) : Nat :=
  s.steps.countP (fun step => step.active)

/-- The ids of the steps, in order. -/
def stepIds (s : StepState) : List StepId :=
  s.steps.map fun step => step.id

/-- The fixed ordered id list of a well-formed step state. -/
def fourIds : List StepId := [.customer, .shipping, .payment, .review]

/-- A user click on the indicator button of step `stepId`
(`CheckoutSteps.tsx` lines 14-27): the button carries
`disabled={!step.completed && !step.active}`, so a click reaches
`onStepClick` = `goToStep` only when the step is completed or active. -/
def clickStep (stepId : StepId) (s : StepState) : StepState :=
  match s.steps.find? (fun step => step.id == stepId) with
  | none => s
  | some step =>
    if !step.completed && !step.active then s else goToStep stepId s

/-- An error thrown by a platform SDK call, as inspected by the code:
an optional `code` and an optional `message`. -/
structure Err where
  code : Option String := none
  message : Option String := none
  deriving DecidableEq, Repr

/-- The state cells of the `useCart` hook (`useCart.ts` lines 6-10). -/
structure CartState where
  cart : Option Cart := none
  loading : Bool := false
  updating : Bool := false
  submitting : Bool := false
  error : Option String := none
  deriving DecidableEq, Repr

/-- Initial `useCart` state. -/
def initialCartState : CartState := {}

/-- A store product, as read by `createDemoCart` from `swell.products.list`. -/
structure Product where
  id : String
  name : String
  deriving DecidableEq, Repr

/-- The `swell.products.list` result shape (`results` array, possibly absent). -/
structure ProductList where
  results : Option (List Product) := none
  deriving DecidableEq, Repr

/-- Per-call-site platform responses for one execution of the cart-loading
operations (`fetchCart`, `loadCartByCheckoutId`, `createDemoCart`).  Each
field is the value the corresponding SDK call resolves or rejects with. -/
structure CartEnv where
  cartGetRes : Except Err (Option Cart) := .ok none
  recoverRes : Except Err (Option Cart) := .ok none
  setItemsRes : Except Err Unit := .ok ()
  productsListRes : Except Err (Option ProductList) := .ok none
  addItemStoreRes : Except Err Unit := .ok ()
  addItemDemoRes : Except Err Unit := .ok ()
  demoGetRes : Except Err (Option Cart) := .ok none
  deriving Repr

/-- A dollar amount given in cents (kernel-reducible rational literal;
`usd 2999` is the source's `29.99`). -/
def usd (cents : Int) : ℚ := mkRat cents 100

/-- The hard-coded minimal cart returned by `createDemoCart`'s catch handler
(`useCart.ts` lines 69-81). -/
def fallbackDemoCart : Cart :=
  { id := "demo-cart",
    items := some [{ id := "demo-item", product_id := "demo-product",
                     name := "Demo Product", price := usd 2999, quantity := 1 }],
    sub_total := some (usd 2999),
    grand_total := some (usd 2999),
    currency := some "USD" }

/-- `createDemoCart` (`useCart.ts` lines 33-83): clear the cart, seed it with
the first store product (or a hard-coded demo item if the store has none),
and return the freshly fetched platform cart; if any of these calls throws,
return the hard-coded `fallbackDemoCart` instead.  This function never
signals failure to its caller. -/
def createDemoCart (env : CartEnv) : Option Cart :=
  match env.setItemsRes with
  | .error _ => some fallbackDemoCart
  | .ok _ =>
    match env.productsListRes with
    | .error _ => some fallbackDemoCart
    | .ok products =>
      let haveProduct : Bool :=
        match products with
        | some pl =>
          match pl.results with
          | some rs => decide (0 < rs.length)
          | none => false
        | none => false
      match (if haveProduct then env.addItemStoreRes else env.addItemDemoRes) with
      | .error _ => some fallbackDemoCart
      | .ok _ =>
        match env.demoGetRes with
        | .error _ => some fallbackDemoCart
        | .ok cart => cart

/-- The usability check applied to a freshly obtained cart
(`cart && cart.items && cart.items.length > 0`). -/
def usableCart (c : Option Cart) : Bool :=
  match c with
  | some cart =>
    match cart.items with
    | some l => decide (0 < l.length)
    | none => false
  | none => false

/-- `fetchCart` (`useCart.ts` lines 12-31): get the session cart; if it is
missing or has no items, replace it by `createDemoCart`'s result; cache the
outcome.  A thrown `swell.cart.get` sets the error message instead. -/
def fetchCart (env : CartEnv) (s0 : CartState) : CartState :=
  let s := { s0 with loading := true }
  let s1 :=
    match env.cartGetRes with
    | .error _ => { s with error := some "Failed to fetch cart" }
    | .ok got =>
      let currentCart := if usableCart got then got else createDemoCart env
      { s with cart := currentCart, error := none }
  { s1 with loading := false }

/-- `loadCartByCheckoutId` (`useCart.ts` lines 85-113): recover the cart for
the given checkout id; if recovery yields no usable cart, cache a demo cart
instead; if recovery throws, set the error message and still cache a demo
cart (the inner catch around the fallback is dead code since `createDemoCart`
never fails). -/
def loadCartByCheckoutId (env : CartEnv) (_checkoutId : String) (s0 : CartState) : CartState :=
  let s := { s0 with loading := true, error := none }
  let s1 :=
    match env.recoverRes with
    | .ok cartData =>
      if usableCart cartData then { s with cart := cartData }
      else { s with cart := createDemoCart env }
    | .error _ =>
      { s with error := some "Failed to load checkout", cart := createDemoCart env }
  { s1 with loading := false }

/-- One call of `updateCart` (`useCart.ts` lines 115-129) with the response
its `swell.cart.update` call receives: on success the response replaces the
cache and is returned; on failure the error message is set and the error is
rethrown. -/
def updateCart (updateRes : Except Err Cart) (s0 : CartState) : Except Err Cart × CartState :=
  let s := { s0 with updating := true }
  match updateRes with
  | .ok updatedCart =>
    (.ok updatedCart, { s with cart := some updatedCart, error := none, updating := false })
  | .error e =>
    (.error e, { s with error := some "Failed to update cart", updating := false })

/-- The resumption of one in-flight `updateCart` call when its response
arrives (`useCart.ts` lines 118-120): `setCart(updatedCart); setError(null)`
unconditionally — there is no request identifier or issue-order check. -/
def updateResponseArrives (s : CartState) (updatedCart : Cart) : CartState :=
  { s with cart := some updatedCart, error := none, updating := false }

/-- The shared cart cache after the responses of several overlapping
`updateCart` calls have arrived, in arrival order. -/
def runUpdateResponses (s : CartState) (responses : List Cart) : CartState :=
  responses.foldl updateResponseArrives s

/-- A platform account (`swell.account.create` / `swell.account.get` result). -/
structure Account where
  id : String
  email : Option String := none
  guest : Option Bool := none
  deriving DecidableEq, Repr

/-- A platform order, with the fields `submitOrder` reads and mutates. -/
structure Order where
  id : String
  number : Option String := none
  status : Option String := none
  paid : Bool := false
  total : Option ℚ := none
  grand_total : ℚ := 0
  payment_status : Option String := none
  payment_balance : Option ℚ := none
  deriving DecidableEq, Repr

/-- The payment selection passed into `submitOrder` (`paymentInfo`). -/
structure PaymentInfo where
  method : Option String := none
  tokenized : Bool := false
  gateway : Option String := none
  deriving DecidableEq, Repr

/-- `startsWithL needle hay` is true when `needle` is a prefix of `hay`. -/
def startsWithL : List Char → List Char → Bool
  | [], _ => true
  | _ :: _, [] => false
  | a :: as, b :: bs => a == b && startsWithL as bs

/-- `hasSub needle hay` is true when `needle` occurs contiguously in `hay`. -/
def hasSub (needle : List Char) : List Char → Bool
  | [] => needle.isEmpty
  | c :: cs => startsWithL needle (c :: cs) || hasSub needle cs

/-- JS `hay.includes(pat)` on strings. -/
def includesStr (hay pat : String) : Bool :=
  hasSub pat.toList hay.toList

/-- The duplicate-account test in `createGuestAccount`'s catch handler
(`error.code === 'duplicate_email' || error.message?.includes('already exists')`). -/
def isDuplicateEmailErr (e : Err) : Bool :=
  e.code == some "duplicate_email" ||
  (match e.message with
   | some m => includesStr m "already exists"
   | none => false)

/-- Per-call-site platform responses for one execution of `submitOrder`
(`useCart.ts` lines 177-390), in call order. -/
structure SubmitEnv where
  cartGet1Res : Except Err (Option Cart) := .ok none
  accountCreateRes : Except Err (Option Account) := .ok none
  accountGetDupRes : Except Err (Option Account) := .ok none
  assocUpdateRes : Except Err Unit := .ok ()
  cartGet2Res : Except Err (Option Cart) := .ok none
  accountGetDebugRes : Except Err (Option Account) := .ok none
  cartGet3Res : Except Err (Option Cart) := .ok none
  billingUpdateRes : Except Err Unit := .ok ()
  cartGet4Res : Except Err (Option Cart) := .ok none
  submitRes : Except Err (Option Order) := .ok none
  orderRefetchRes : Except Err (Option Order) := .ok none
  paymentPostRes : Except Err Unit := .ok ()
  deriving Repr

/-- `createGuestAccount` (`useCart.ts` lines 131-175): returns the created
account; on a duplicate-email failure it falls back to retrieving the
existing account; on every other failure — or when the fallback also fails —
it returns `null` instead of rethrowing, so order submission continues. -/
def createGuestAccount (env : SubmitEnv) (_email : String)
    (_firstName _lastName : Option String) : Option Account :=
  match env.accountCreateRes with
  | .ok guestAccount => guestAccount
  | .error e =>
    if isDuplicateEmailErr e then
      match env.accountGetDupRes with
      | .ok (some existingAccount) => some existingAccount
      | _ => none
    else none

/-- The billing record of an optional cart (`cart?.billing`). -/
def billingOf (c : Option Cart) : Option BillingAddress :=
  c.bind fun cart => cart.billing

/-- JS `a || b` on two optional strings (empty string is falsy). -/
def jsOrStr (a b : Option String) : Option String :=
  if truthyStr a then a else b

/-- The error message chosen by `submitOrder`'s catch handler
(`useCart.ts` lines 372-384). -/
def submitErrorMessage (e : Err) : String :=
  if e.code == some "validation_error" then
    "Order validation failed: " ++ (match e.message with | some m => m | none => "undefined")
  else if e.code == some "payment_error" then
    "Payment processing failed. Please check your payment details."
  else if e.code == some "inventory_error" then
    "Some items are no longer available. Please review your cart."
  else "Failed to submit order"

/-- The path taken when a call inside `submitOrder`'s outer try throws:
classify the error into a message, set it, clear `submitting`, rethrow. -/
def submitThrow (e : Err) (s : CartState) : Except Err Order × CartState :=
  (.error e, { s with error := some (submitErrorMessage e), submitting := false })

/-- The billing-method confirmation block (`useCart.ts` lines 238-271): runs
inside its own try whose catch handler only logs and continues; it performs
no local state update, so every failure inside it is swallowed.  Returns
whether the block ran without a swallowed error (a value the source ignores). -/
def confirmBillingMethod (env : SubmitEnv) (pInfo : PaymentInfo) : Bool :=
  match env.cartGet3Res with
  | .error _ => false
  | .ok currentCartState =>
    if ((billingOf currentCartState).bind fun b => b.method) != pInfo.method then
      match env.billingUpdateRes with
      | .error _ => false
      | .ok _ => true
    else true

/-- The post-submission payment-processing block (`useCart.ts` lines
307-369): for an unpaid order with a positive total, either re-fetch a
tokenized Stripe order to pick up its paid status, or create a payment
record and mark the order paid; every failure inside it is caught and the
order is returned unchanged ("Don't fail the order submission for payment
processing issues"). -/
def processPayment (env : SubmitEnv) (paymentInfo : Option PaymentInfo)
    (order : Order) : Order :=
  match paymentInfo with
  | none => order
  | some pInfo =>
    if !order.paid && decide (0 < order.grand_total) then
      if pInfo.method == some "stripe" && pInfo.tokenized then
        match env.orderRefetchRes with
        | .error _ => order
        | .ok (some updatedOrder) =>
          if updatedOrder.paid then
            { order with paid := updatedOrder.paid,
                         payment_status := updatedOrder.payment_status }
          else order
        | .ok none => order
      else
        match env.paymentPostRes with
        | .error _ => order
        | .ok _ => { order with paid := true, payment_status := some "paid" }
    else order

/-- `submitOrder` (`useCart.ts` lines 177-390): read the current cart,
create and associate a guest account when an email is available and the cart
has none (failures there are swallowed), confirm the billing method
(failures swallowed), submit the order (failures classified, surfaced and
rethrown), then run post-submission payment processing (failures swallowed)
and return the order. -/
def submitOrder (env : SubmitEnv) (customerEmail : Option String)
    (paymentInfo : Option PaymentInfo) (s0 : CartState) :
    Except Err Order × CartState :=
  let s := { s0 with submitting := true }
  match env.cartGet1Res with
  | .error e => submitThrow e s
  | .ok currentCart =>
    let emailToUse := jsOrStr customerEmail ((billingOf currentCart).bind fun b => b.email)
    let accountBranch : Bool :=
      truthyStr emailToUse && !truthyStr (currentCart.bind fun c => c.account_id)
    let afterAccount : Except (Err × CartState) CartState :=
      if accountBranch then
        let guestAccount := createGuestAccount env (emailToUse.getD "")
          ((billingOf currentCart).bind fun b => b.first_name)
          ((billingOf currentCart).bind fun b => b.last_name)
        let _assocOk : Bool :=
          match guestAccount with
          | some _ =>
            (match env.assocUpdateRes with
             | .ok _ => true
             | .error _ => false)
          | none => true
        match env.cartGet2Res with
        | .error e => .error (e, s)
        | .ok refreshedCart =>
          let s2 := { s with cart := refreshedCart }
          if !truthyStr (refreshedCart.bind fun c => c.account_id) then
            match env.accountGetDebugRes with
            | .error e => .error (e, s2)
            | .ok _ => .ok s2
          else .ok s2
      else .ok s
    match afterAccount with
    | .error (e, se) => submitThrow e se
    | .ok s2 =>
      let _methodOk : Bool :=
        match paymentInfo with
        | some pInfo => if truthyStr pInfo.method then confirmBillingMethod env pInfo else true
        | none => true
      match env.cartGet4Res with
      | .error e => submitThrow e s2
      | .ok _finalCart =>
        match env.submitRes with
        | .error e => submitThrow e s2
        | .ok none =>
          submitThrow { message := some "Order submission failed - no order returned" } s2
        | .ok (some order) =>
          let s3 := { s2 with error := none }
          (.ok (processPayment env paymentInfo order), { s3 with submitting := false })

/-- A JS form/payload object modelled as an association list from field
names to (possibly undefined) string values. -/
abbrev FormData := List (String × Option String)

/-- Property read `data.k` on such an object. -/
def lookupField (data : FormData) (k : String) : Option String :=
  match data.find? (fun kv => kv.1 == k) with
  | some kv => kv.2
  | none => none

/-- `handleCustomerInfoSubmit` (`CheckoutPage.tsx` lines 48-66): builds the
`allowedBillingFields` object literal — exactly these nine keys, each read
from the submitted data — and sends it as the `billing` payload of
`updateCart`; the submitted email is stored locally, not sent. -/
def handleCustomerInfoSubmit (data : FormData) : FormData :=
  [ ("first_name", lookupField data "first_name"),
    ("last_name", lookupField data "last_name"),
    ("address1", lookupField data "address1"),
    ("address2", lookupField data "address2"),
    ("city", lookupField data "city"),
    ("state", lookupField data "state"),
    ("zip", lookupField data "zip"),
    ("country", lookupField data "country"),
    ("phone", lookupField data "phone") ]

/-- The allowed billing field names (`CheckoutPage.tsx` lines 50-60). -/
def allowedBillingKeys : List String :=
  ["first_name", "last_name", "address1", "address2", "city", "state", "zip", "country", "phone"]

/-- The field names present in a payload object. -/
def payloadKeys (payload : FormData) : List String :=
  payload.map fun kv => kv.1

/-- A cart a returning user resumes: billing has first/last/email, shipping
has address1, no payment method yet. -/
def resumeCart : Cart :=
  { id := "resume-cart",
    items := some [{ id := "i1", product_id := "p1", name := "Item",
                     price := usd 2999, quantity := 1 }],
    billing := some { first_name := some "A", last_name := some "B",
                      email := some "a@b.com" },
    shipping := some { address1 := some "1 Main St" } }

/-- A cart with customer info only, used to exercise the auto-skip logic. -/
def customerOnlyCart : Cart :=
  { id := "customer-cart",
    billing := some { first_name := some "A", last_name := some "B",
                      email := some "a@b.com" } }

/-- A pending, unpaid order with a positive total. -/
def pendingOrder : Order :=
  { id := "order-1", number := some "1001", status := some "pending",
    paid := false, grand_total := usd 2999 }

/-- A cart without an account id, as seen by `submitOrder`. -/
def guestCart : Cart :=
  { id := "guest-cart",
    items := some [{ id := "i1", product_id := "p1", name := "Item",
                     price := usd 2999, quantity := 1 }],
    billing := some { first_name := some "A", last_name := some "B",
                      email := some "a@b.com" } }

/-- A `submitOrder` execution in which guest-account creation fails outright
and the post-submission payment-record creation also fails, while the
platform accepts the order itself. -/
def swallowEnv : SubmitEnv :=
  { cartGet1Res := .ok (some guestCart),
    accountCreateRes := .error { message := some "account service down" },
    cartGet2Res := .ok (some guestCart),
    cartGet4Res := .ok (some guestCart),
    submitRes := .ok (some pendingOrder),
    paymentPostRes := .error { code := some "payment_error", message := some "card declined" } }

/-! ### Step-state helper lemmas -/

theorem find?_map_id {f : Step → Step} (hid : ∀ st, (f st).id = st.id)
    (l : List Step) (i : StepId) :
    (l.map f).find? (fun step => step.id == i) =
      (l.find? (fun step => step.id == i)).map f := by
  rw [List.find?_map]
  have h : ((fun step : Step => step.id == i) ∘ f) = (fun step : Step => step.id == i) := by
    funext st
    simp only [Function.comp_apply, hid st]
  rw [h]

theorem isCompleted_mk_map {f : Step → Step} (hid : ∀ st, (f st).id = st.id)
    (l : List Step) (c : StepId) (i : StepId) :
    isCompleted i { steps := l.map f, currentStep := c } =
      (match l.find? (fun step => step.id == i) with
       | some st => (f st).completed
       | none => false) := by
  unfold isCompleted
  simp only
  rw [find?_map_id hid]
  cases l.find? (fun step => step.id == i) <;> rfl

theorem isCompleted_goToStep (j : StepId) (s : StepState) (i : StepId) :
    isCompleted i (goToStep j s) = isCompleted i s := by
  unfold goToStep
  rw [isCompleted_mk_map (f := fun step => { step with active := step.id == j })
    (fun st => rfl)]
  unfold isCompleted
  cases s.steps.find? (fun step => step.id == i) <;> rfl

theorem isCompleted_completeStep (j : StepId) (s : StepState) (i : StepId)
    (h : isCompleted i s = true) : isCompleted i (completeStep j s) = true := by
  unfold completeStep
  rw [isCompleted_mk_map (f := fun step =>
    if step.id == j then { step with completed := true } else step)
    (fun st => by dsimp only; split <;> rfl)]
  unfold isCompleted at h
  cases hf : s.steps.find? (fun step => step.id == i) with
  | none => rw [hf] at h; exact absurd h (by simp)
  | some st =>
    rw [hf] at h
    simp only
    split <;> simp_all

theorem isCompleted_deriveCompleted (c : Cart) (s : StepState) (i : StepId)
    (h : isCompleted i s = true) : isCompleted i (deriveCompleted c s) = true := by
  unfold deriveCompleted
  rw [isCompleted_mk_map (f := fun step =>
    { step with completed :=
        (step.id == .customer && hasCustomerInfo c) ||
        (step.id == .shipping && hasShipping c) ||
        (step.id == .payment && hasPayment c) ||
        step.completed })
    (fun st => rfl)]
  unfold isCompleted at h
  cases hf : s.steps.find? (fun step => step.id == i) with
  | none => rw [hf] at h; exact absurd h (by simp)
  | some st =>
    rw [hf] at h
    have hc : st.completed = true := h
    simp [hc]

theorem isCompleted_nextStep (s : StepState) (i : StepId)
    (h : isCompleted i s = true) : isCompleted i (nextStep s) = true := by
  unfold nextStep
  split
  · exact h
  · split
    · rw [isCompleted_goToStep]
      exact isCompleted_completeStep _ _ _ h
    · exact h

theorem isCompleted_prevStep (s : StepState) (i : StepId) :
    isCompleted i (prevStep s) = isCompleted i s := by
  unfold prevStep
  split
  · rfl
  · split
    · rfl
    · split
      · rw [isCompleted_goToStep]
      · rfl

theorem isCompleted_cartEffect (c : Option Cart) (s : StepState) (i : StepId)
    (h : isCompleted i s = true) : isCompleted i (cartEffect c s) = true := by
  cases c with
  | none => exact h
  | some cart =>
    simp only [cartEffect]
    split_ifs <;>
      first
        | (rw [isCompleted_goToStep]; exact isCompleted_deriveCompleted _ _ _ h)
        | exact isCompleted_deriveCompleted _ _ _ h

theorem isCompleted_applyOp (op : StepOp) (s : StepState) (i : StepId)
    (h : isCompleted i s = true) : isCompleted i (applyOp s op) = true := by
  cases op with
  | goTo j => simp only [applyOp]; rw [isCompleted_goToStep]; exact h
  | complete j => exact isCompleted_completeStep j s i h
  | next => exact isCompleted_nextStep s i h
  | prev => simp only [applyOp]; rw [isCompleted_prevStep]; exact h
  | derive c => exact isCompleted_cartEffect c s i h

theorem isCompleted_runOps (ops : List StepOp) (s : StepState) (i : StepId)
    (h : isCompleted i s = true) : isCompleted i (runOps ops s) = true := by
  induction ops generalizing s with
  | nil => exact h
  | cons op ops ih =>
    simp only [runOps, List.foldl_cons] at *
    exact ih _ (isCompleted_applyOp op s i h)

/-- C6: over every sequence of step operations (navigation, completion and
cart-derived recomputation), a step's `completed` flag never reverts to
false once true; and `prevStep` (retreat) leaves every `completed` flag
exactly unchanged. -/
theorem completed_monotonic (ops : List StepOp) (s t : StepState) (i j : StepId)
    (h : isCompleted i s = true) :
    isCompleted i (runOps ops s) = true ∧
    isCompleted j (prevStep t) = isCompleted j t :=
  ⟨isCompleted_runOps ops s i h, isCompleted_prevStep t j⟩

/-- Witness for `completed_monotonic` at concrete inputs. -/
theorem completed_monotonic_witness :
    isCompleted .customer (nextStep initialState) = true ∧
    (isCompleted .customer
        (runOps [.prev, .derive none, .goTo .review] (nextStep initialState)) = true ∧
      isCompleted .shipping (prevStep (goToStep .review initialState)) =
        isCompleted .shipping (goToStep .review initialState)) :=
  ⟨by decide,
    completed_monotonic [.prev, .derive none, .goTo .review]
      (nextStep initialState) (goToStep .review initialState) .customer .shipping (by decide)⟩

/-! ### Single-active-step invariant -/

theorem stepIds_mk_map {f : Step → Step} (hid : ∀ st, (f st).id = st.id)
    (l : List Step) (c : StepId) :
    stepIds { steps := l.map f, currentStep := c } = l.map fun step => step.id := by
  unfold stepIds
  simp only [List.map_map]
  congr 1
  funext st
  exact hid st

theorem stepIds_goToStep (j : StepId) (s : StepState) :
    stepIds (goToStep j s) = stepIds s := by
  unfold goToStep
  exact stepIds_mk_map (f := fun step => { step with active := step.id == j })
    (fun st => rfl) s.steps j

theorem stepIds_completeStep (j : StepId) (s : StepState) :
    stepIds (completeStep j s) = stepIds s := by
  unfold completeStep
  exact stepIds_mk_map (f := fun step =>
      if step.id == j then { step with completed := true } else step)
    (fun st => by dsimp only; split <;> rfl) s.steps s.currentStep

theorem stepIds_deriveCompleted (c : Cart) (s : StepState) :
    stepIds (deriveCompleted c s) = stepIds s := by
  unfold deriveCompleted
  exact stepIds_mk_map (f := fun step =>
      { step with completed :=
          (step.id == .customer && hasCustomerInfo c) ||
          (step.id == .shipping && hasShipping c) ||
          (step.id == .payment && hasPayment c) ||
          step.completed })
    (fun st => rfl) s.steps s.currentStep

theorem countActive_mk_map {f : Step → Step} (ha : ∀ st, (f st).active = st.active)
    (l : List Step) (c : StepId) :
    countActive { steps := l.map f, currentStep := c } =
      l.countP fun step => step.active := by
  unfold countActive
  simp only [List.countP_map]
  congr 1
  funext st
  simp only [Function.comp_apply, ha st]

theorem countActive_completeStep (j : StepId) (s : StepState) :
    countActive (completeStep j s) = countActive s := by
  unfold completeStep
  exact countActive_mk_map (f := fun step =>
      if step.id == j then { step with completed := true } else step)
    (fun st => by dsimp only; split <;> rfl) s.steps s.currentStep

theorem countActive_deriveCompleted (c : Cart) (s : StepState) :
    countActive (deriveCompleted c s) = countActive s := by
  unfold deriveCompleted
  exact countActive_mk_map (f := fun step =>
      { step with completed :=
          (step.id == .customer && hasCustomerInfo c) ||
          (step.id == .shipping && hasShipping c) ||
          (step.id == .payment && hasPayment c) ||
          step.completed })
    (fun st => rfl) s.steps s.currentStep

theorem steps_shape (s : StepState) (h : stepIds s = fourIds) :
    ∃ a b c d, s.steps = [a, b, c, d] ∧
      a.id = .customer ∧ b.id = .shipping ∧ c.id = .payment ∧ d.id = .review := by
  rcases s with ⟨steps, cur⟩
  simp only [stepIds, fourIds] at h
  rcases steps with _ | ⟨a, _ | ⟨b, _ | ⟨c, _ | ⟨d, _ | ⟨e, l⟩⟩⟩⟩⟩ <;> simp_all
  exact ⟨a, b, c, d, ⟨rfl, rfl, rfl, rfl⟩, h⟩

theorem countActive_goToStep (j : StepId) (s : StepState) (h : stepIds s = fourIds) :
    countActive (goToStep j s) = 1 := by
  obtain ⟨a, b, c, d, hs, ha, hb, hc, hd⟩ := steps_shape s h
  unfold goToStep countActive
  simp only
  rw [hs]
  simp only [List.map_cons, List.map_nil, List.countP_cons, List.countP_nil]
  cases j <;> simp [ha, hb, hc, hd]

theorem inv_applyOp (op : StepOp) (s : StepState)
    (h1 : stepIds s = fourIds) (h2 : countActive s = 1) :
    stepIds (applyOp s op) = fourIds ∧ countActive (applyOp s op) = 1 := by
  cases op with
  | goTo j =>
    exact ⟨by simp only [applyOp]; rw [stepIds_goToStep]; exact h1,
      countActive_goToStep j s h1⟩
  | complete j =>
    exact ⟨by simp only [applyOp]; rw [stepIds_completeStep]; exact h1,
      by simp only [applyOp]; rw [countActive_completeStep]; exact h2⟩
  | next =>
    simp only [applyOp]
    unfold nextStep
    split
    · exact ⟨h1, h2⟩
    · split
      · constructor
        · rw [stepIds_goToStep, stepIds_completeStep]
          exact h1
        · refine countActive_goToStep _ _ ?_
          rw [stepIds_completeStep]
          exact h1
      · exact ⟨h1, h2⟩
  | prev =>
    simp only [applyOp]
    unfold prevStep
    split
    · exact ⟨h1, h2⟩
    · split
      · exact ⟨h1, h2⟩
      · split
        · exact ⟨by rw [stepIds_goToStep]; exact h1, countActive_goToStep _ _ h1⟩
        · exact ⟨h1, h2⟩
  | derive c =>
    cases c with
    | none => exact ⟨h1, h2⟩
    | some cart =>
      simp only [applyOp, cartEffect]
      have hd1 : stepIds (deriveCompleted cart s) = fourIds := by
        rw [stepIds_deriveCompleted]; exact h1
      have hd2 : countActive (deriveCompleted cart s) = 1 := by
        rw [countActive_deriveCompleted]; exact h2
      split_ifs <;>
        first
          | exact ⟨by rw [stepIds_goToStep]; exact hd1, countActive_goToStep _ _ hd1⟩
          | exact ⟨hd1, hd2⟩

theorem inv_runOps (ops : List StepOp) (s : StepState)
    (h1 : stepIds s = fourIds) (h2 : countActive s = 1) :
    stepIds (runOps ops s) = fourIds ∧ countActive (runOps ops s) = 1 := by
  induction ops generalizing s with
  | nil => exact ⟨h1, h2⟩
  | cons op ops ih =>
    simp only [runOps, List.foldl_cons] at *
    obtain ⟨g1, g2⟩ := inv_applyOp op s h1 h2
    exact ih _ g1 g2

/-- C7: in every state reachable from the initial step state by any sequence
of `goToStep`, `completeStep`, `nextStep`, `prevStep` and cart-derived
recomputation, exactly one of the four checkout steps is active. -/
theorem single_active (ops : List StepOp) :
    countActive (runOps ops initialState) = 1 :=
  (inv_runOps ops initialState (by decide) (by decide)).2

/-! ### Navigation gating (claim C1) -/

theorem isActive_mk_map {f : Step → Step} (hid : ∀ st, (f st).id = st.id)
    (l : List Step) (c : StepId) (i : StepId) :
    isActive i { steps := l.map f, currentStep := c } =
      (match l.find? (fun step => step.id == i) with
       | some st => (f st).active
       | none => false) := by
  unfold isActive
  simp only
  rw [find?_map_id hid]
  cases l.find? (fun step => step.id == i) <;> rfl

theorem isActive_goToStep_self (j : StepId) (s : StepState) (st : Step)
    (hf : s.steps.find? (fun step => step.id == j) = some st) :
    isActive j (goToStep j s) = true := by
  unfold goToStep
  rw [isActive_mk_map (f := fun step => { step with active := step.id == j })
    (fun st => rfl)]
  rw [hf]
  simpa using List.find?_some hf

/-- C1 counterexample: `goToStep` itself performs no gating — from the
initial state (payment neither completed nor active), `goToStep 'payment'`
does change the active step to `payment`, so the claimed "changes the active
step iff the target is completed or active" is false of `goToStep`. -/
theorem goToStep_not_gated :
    isCompleted .payment initialState = false ∧
    isActive .payment initialState = false ∧
    (goToStep .payment initialState).currentStep = .payment ∧
    isActive .payment (goToStep .payment initialState) = true ∧
    goToStep .payment initialState ≠ initialState := by
  decide

/-- C1 (amended): the gating lives in the step-indicator UI, not in
`goToStep`: the indicator button of step `j` is disabled unless `j` is
completed or active, so a user click on step `j` results in `j` being the
active step iff `j` was already completed or was already the active step;
in particular, from the initial state a click on `payment` is a no-op. -/
theorem clickStep_gated (s : StepState) (j : StepId) :
    (isActive j (clickStep j s) = true ↔
      (isCompleted j s = true ∨ isActive j s = true)) ∧
    clickStep .payment initialState = initialState := by
  refine ⟨?_, by decide⟩
  cases hf : s.steps.find? (fun step => step.id == j) with
  | none =>
    simp [clickStep, isActive, isCompleted, hf]
  | some st =>
    have hca : isCompleted j s = st.completed := by
      unfold isCompleted; rw [hf]
    have haa : isActive j s = st.active := by
      unfold isActive; rw [hf]
    unfold clickStep
    rw [hf]
    cases hcc : st.completed <;> cases hac : st.active <;>
      simp_all [isActive_goToStep_self j s st hf]

/-! ### Auto-skip derivation (claims C5, C8) -/

/-- C5 counterexample: the auto-skip is gated only on
`currentStep === 'customer'`, not on being the first cart load — after the
user manually retreats to the customer step, a later run of the cart effect
(triggered by any cart refresh) re-triggers the auto-skip and moves the
active step forward again. -/
theorem autoskip_retriggers :
    (cartEffect (some customerOnlyCart) initialState).currentStep = .shipping ∧
    (prevStep (cartEffect (some customerOnlyCart) initialState)).currentStep = .customer ∧
    (cartEffect (some customerOnlyCart)
        (prevStep (cartEffect (some customerOnlyCart) initialState))).currentStep = .shipping := by
  decide

/-- C5 (amended): the auto-skip derivation runs on *every* cart-effect run
in which the current step is `'customer'`, not only on the first load; only
while the current step is not `'customer'` does a cart change leave the
current step and every `active` flag unchanged (updating `completed` flags
only). -/
theorem cartEffect_only_skips_on_customer (oc : Option Cart) (s : StepState)
    (h : s.currentStep ≠ StepId.customer) :
    (cartEffect oc s).currentStep = s.currentStep ∧
    (cartEffect oc s).steps.map (fun step => step.active) =
      s.steps.map (fun step => step.active) := by
  cases oc with
  | none => exact ⟨rfl, rfl⟩
  | some c =>
    have hc : (s.currentStep == StepId.customer) = false := by
      simpa using h
    simp only [cartEffect, hc, Bool.false_eq_true, if_false]
    exact ⟨rfl, by simp [deriveCompleted, List.map_map]⟩

/-- Witness for `cartEffect_only_skips_on_customer` at a concrete state off
the customer step. -/
theorem cartEffect_only_skips_on_customer_witness :
    (cartEffect (some customerOnlyCart) (goToStep .review initialState)).currentStep =
        (goToStep .review initialState).currentStep ∧
    (cartEffect (some customerOnlyCart) (goToStep .review initialState)).steps.map
        (fun step => step.active) =
      (goToStep .review initialState).steps.map (fun step => step.active) :=
  cartEffect_only_skips_on_customer (some customerOnlyCart)
    (goToStep .review initialState) (by decide)

/-- C8: a freshly loaded cart with billing first/last/email and shipping
address1 but no payment method lands the user on `payment`, with `customer`
and `shipping` marked completed. -/
theorem autoskip_resume (c : Cart) (h1 : hasCustomerInfo c = true)
    (h2 : hasShipping c = true) (h3 : hasPayment c = false) :
    (cartEffect (some c) initialState).currentStep = .payment ∧
    isActive .payment (cartEffect (some c) initialState) = true ∧
    isCompleted .customer (cartEffect (some c) initialState) = true ∧
    isCompleted .shipping (cartEffect (some c) initialState) = true := by
  simp only [cartEffect, deriveCompleted, goToStep, initialState, initialSteps,
    h1, h2, h3]
  decide

/-- Witness for `autoskip_resume` at a concrete resumed cart. -/
theorem autoskip_resume_witness :
    hasCustomerInfo resumeCart = true ∧ hasShipping resumeCart = true ∧
    hasPayment resumeCart = false ∧
    ((cartEffect (some resumeCart) initialState).currentStep = .payment ∧
      isActive .payment (cartEffect (some resumeCart) initialState) = true ∧
      isCompleted .customer (cartEffect (some resumeCart) initialState) = true ∧
      isCompleted .shipping (cartEffect (some resumeCart) initialState) = true) :=
  ⟨by decide, by decide, by decide,
    autoskip_resume resumeCart (by decide) (by decide) (by decide)⟩

/-! ### Checkout-id resolution (claim C2) -/

/-- C2 counterexample: with a checkout identifier that resolves to no cart
(recovery returns null) and a store whose demo seeding fails,
`loadCartByCheckoutId` caches the fabricated hard-coded $29.99 demo cart and
records no error at all — there is no NotFoundError-class terminal failure
and a placeholder cart is cached. -/
theorem loadByCheckoutId_fabricates :
    loadCartByCheckoutId { recoverRes := .ok none, setItemsRes := .error {} }
        "nonexistent" initialCartState =
      { cart := some fallbackDemoCart, loading := false, error := none } ∧
    fallbackDemoCart.grand_total = some (usd 2999) := by
  decide

/-- C2 (amended): `loadCartByCheckoutId` never fails terminally: when
recovery yields no usable cart it silently caches `createDemoCart`'s result
with no error recorded, and when recovery throws it sets the error message
"Failed to load checkout" but still caches a demo cart. -/
theorem loadByCheckoutId_demo_fallback (env : CartEnv) (cid : String) (s : CartState) :
    (∀ cartData, env.recoverRes = .ok cartData → usableCart cartData = false →
      loadCartByCheckoutId env cid s =
        { s with loading := false, error := none, cart := createDemoCart env }) ∧
    (∀ e, env.recoverRes = .error e →
      loadCartByCheckoutId env cid s =
        { s with
          loading := false
          error := some "Failed to load checkout"
          cart := createDemoCart env }) := by
  rcases s with ⟨c0, l0, u0, b0, e0⟩
  constructor
  · intro cartData h1 h2
    simp [loadCartByCheckoutId, h1, h2]
  · intro e h1
    simp [loadCartByCheckoutId, h1]

/-- Witness for `loadByCheckoutId_demo_fallback`: a failing recovery caches
the fallback demo cart alongside the load-failure message. -/
theorem loadByCheckoutId_demo_fallback_witness :
    loadCartByCheckoutId
        { recoverRes := .error { code := some "not_found" }, setItemsRes := .error {} }
        "nonexistent" initialCartState =
      { initialCartState with
        loading := false
        error := some "Failed to load checkout"
        cart := createDemoCart
          { recoverRes := .error { code := some "not_found" }, setItemsRes := .error {} } } :=
  (loadByCheckoutId_demo_fallback
      { recoverRes := .error { code := some "not_found" }, setItemsRes := .error {} }
      "nonexistent" initialCartState).2
    { code := some "not_found" } rfl

/-! ### Stale update responses (claim C3) -/

/-- C3 counterexample: `updateCart` applies each response to the cache at
arrival time with no issue-order guard — when update(A) is issued before
update(B) but B's response arrives first, the cache ends up holding A's
(stale) response rather than B's after both resolve. -/
theorem update_last_arrival_wins :
    (runUpdateResponses initialCartState
        [{ id := "cart-after-B" }, { id := "cart-after-A" }]).cart =
      some { id := "cart-after-A" } ∧
    (runUpdateResponses initialCartState
        [{ id := "cart-after-B" }, { id := "cart-after-A" }]).cart ≠
      some { id := "cart-after-B" } := by
  decide

/-- C3 (amended): the cart cache reflects the most recently *arrived* update
response, whatever the issue order: after any sequence of update-response
arrivals, the cache holds exactly the last response to arrive. -/
theorem update_cache_reflects_last_arrival (s : CartState) (rs : List Cart) (r : Cart) :
    (runUpdateResponses s (rs ++ [r])).cart = some r := by
  unfold runUpdateResponses
  rw [List.foldl_append]
  rfl

/-! ### Failure propagation in submitOrder (claim C4) -/

/-- C4 counterexample: `submitOrder` swallows failures: in an execution in
which guest-account creation fails outright and payment-record creation also
fails, `submitOrder` still resolves successfully with the submitted order and
a cleared error cell — neither failure is surfaced to the caller. -/
theorem submitOrder_swallows_failures :
    (submitOrder swallowEnv (some "a@b.com") (some { method := some "paypal" })
        initialCartState).1 = .ok pendingOrder ∧
    (submitOrder swallowEnv (some "a@b.com") (some { method := some "paypal" })
        initialCartState).2.error = none := by
  exact ⟨rfl, rfl⟩

/-- C4 (amended): `submitOrder` classifies and rethrows failures of the
platform order-submission call itself, but it swallows guest-account-creation
failures (`createGuestAccount` returns null and submission continues) and
post-submission payment-processing failures (the order is still returned as
a success); no operation retries automatically. -/
theorem submitOrder_error_policy :
    (∀ (env : SubmitEnv) (ce : Option String) (pinfo : Option PaymentInfo)
        (s : CartState) (e : Err) (c fc : Option Cart),
      env.cartGet1Res = .ok c →
      (truthyStr (jsOrStr ce ((billingOf c).bind fun b => b.email)) &&
        !truthyStr (c.bind fun cart => cart.account_id)) = false →
      env.cartGet4Res = .ok fc →
      env.submitRes = .error e →
      (submitOrder env ce pinfo s).1 = .error e ∧
      (submitOrder env ce pinfo s).2.error = some (submitErrorMessage e)) ∧
    (∀ (env : SubmitEnv) (em : String) (fn ln : Option String) (e : Err),
      env.accountCreateRes = .error e → isDuplicateEmailErr e = false →
      createGuestAccount env em fn ln = none) ∧
    (∀ (env : SubmitEnv) (pInfo : PaymentInfo) (order : Order) (e : Err),
      env.paymentPostRes = .error e →
      (pInfo.method == some "stripe" && pInfo.tokenized) = false →
      processPayment env (some pInfo) order = order) := by
  refine ⟨?_, ?_, ?_⟩
  · intro env ce pinfo s e c fc h1 h2 h3 h4
    constructor <;> simp [submitOrder, submitThrow, h1, h2, h3, h4]
  · intro env em fn ln e h1 h2
    simp [createGuestAccount, h1, h2]
  · intro env pInfo order e h1 h2
    simp [processPayment, h1, h2]

/-- Witness for `submitOrder_error_policy` at concrete executions. -/
theorem submitOrder_error_policy_witness :
    ((submitOrder { cartGet1Res := .ok none, submitRes := .error { code := some "payment_error" } }
        none none initialCartState).1 = .error { code := some "payment_error" } ∧
      (submitOrder { cartGet1Res := .ok none, submitRes := .error { code := some "payment_error" } }
        none none initialCartState).2.error =
        some (submitErrorMessage { code := some "payment_error" })) ∧
    createGuestAccount { accountCreateRes := .error { message := some "boom" } }
        "a@b.com" none none = none ∧
    processPayment { paymentPostRes := .error {} }
        (some { method := some "paypal" }) pendingOrder = pendingOrder :=
  ⟨submitOrder_error_policy.1
      { cartGet1Res := .ok none, submitRes := .error { code := some "payment_error" } }
      none none initialCartState { code := some "payment_error" } none none
      rfl (by decide) rfl rfl,
   submitOrder_error_policy.2.1 { accountCreateRes := .error { message := some "boom" } }
      "a@b.com" none none { message := some "boom" } rfl (by decide),
   submitOrder_error_policy.2.2 { paymentPostRes := .error {} }
      { method := some "paypal" } pendingOrder {} rfl (by decide)⟩

/-! ### Billing field whitelisting (claim C9) -/

/-- C9: `handleCustomerInfoSubmit` sends a billing payload whose keys are
exactly the nine allowed billing fields, whatever the submitted form data
contains; any field outside the allowed set (an email, a confirmation flag,
…) does not appear in the payload. -/
theorem billing_whitelist (data : FormData) :
    payloadKeys (handleCustomerInfoSubmit data) = allowedBillingKeys ∧
    (∀ k : String, k ∉ allowedBillingKeys →
      k ∉ payloadKeys (handleCustomerInfoSubmit data)) := by
  refine ⟨rfl, ?_⟩
  intro k hk
  rw [show payloadKeys (handleCustomerInfoSubmit data) = allowedBillingKeys from rfl]
  exact hk

/-- Witness for `billing_whitelist`: a submission carrying extra `email` and
`confirm` fields produces a payload without them. -/
theorem billing_whitelist_witness :
    payloadKeys (handleCustomerInfoSubmit
        [("first_name", some "A"), ("email", some "x@y.z"), ("confirm", some "true")]) =
      allowedBillingKeys ∧
    "email" ∉ payloadKeys (handleCustomerInfoSubmit
        [("first_name", some "A"), ("email", some "x@y.z"), ("confirm", some "true")]) :=
  ⟨(billing_whitelist _).1, (billing_whitelist _).2 "email" (by decide)⟩

/-! ### Demo-cart fallback in fetch (claim C10) -/

/-- C10 counterexample: the demo path does not re-check the item count —
when the session cart is missing and the platform's post-seeding `cart.get`
returns a cart whose items array is empty, `fetchCart` caches that cart with
zero items, so a cache-setting fetch does not always yield a cart with at
least one item. -/
theorem fetchCart_can_cache_empty_demo :
    (fetchCart { cartGetRes := .ok none,
                 demoGetRes := .ok (some { id := "seeded", items := some [] }) }
        initialCartState).cart =
      some { id := "seeded", items := some ([] : List CartItem) } ∧
    (((fetchCart { cartGetRes := .ok none,
                   demoGetRes := .ok (some { id := "seeded", items := some [] }) }
        initialCartState).cart.bind fun c => c.items).map List.length) = some 0 := by
  decide

/-- C10 (amended): when the platform cart is missing or has no items,
`fetchCart` silently caches `createDemoCart`'s result with no error or empty
state surfaced; the hard-coded fallback cart (used whenever any demo-seeding
call throws) has exactly one $29.99 item, but a platform-seeded demo cart is
cached as returned, without re-checking that it has items. -/
theorem fetchCart_demo_on_empty (env : CartEnv) (s : CartState) (got : Option Cart)
    (h1 : env.cartGetRes = .ok got) (h2 : usableCart got = false) :
    fetchCart env s =
      { s with loading := false, error := none, cart := createDemoCart env } ∧
    (∀ e, env.setItemsRes = .error e → createDemoCart env = some fallbackDemoCart) ∧
    (fallbackDemoCart.items.map fun l => l.length) = some 1 := by
  refine ⟨?_, ?_, by decide⟩
  · rcases s with ⟨c0, l0, u0, b0, e0⟩
    simp [fetchCart, h1, h2]
  · intro e he
    simp [createDemoCart, he]

/-- Witness for `fetchCart_demo_on_empty`: an absent session cart with a
failing seeding call caches the one-item fallback demo cart. -/
theorem fetchCart_demo_on_empty_witness :
    fetchCart { cartGetRes := .ok none, setItemsRes := .error {} } initialCartState =
      { initialCartState with
        loading := false
        error := none
        cart := createDemoCart { cartGetRes := .ok none, setItemsRes := .error {} } } ∧
    createDemoCart { cartGetRes := .ok none, setItemsRes := .error {} } =
      some fallbackDemoCart ∧
    (fallbackDemoCart.items.map fun l => l.length) = some 1 :=
  ⟨(fetchCart_demo_on_empty { cartGetRes := .ok none, setItemsRes := .error {} }
      initialCartState none rfl (by decide)).1,
   (fetchCart_demo_on_empty { cartGetRes := .ok none, setItemsRes := .error {} }
      initialCartState none rfl (by decide)).2.1 {} rfl,
   (fetchCart_demo_on_empty { cartGetRes := .ok none, setItemsRes := .error {} }
      initialCartState none rfl (by decide)).2.2⟩


end Checkout
